import Mathlib

/-!
Verification of the auto-trade market-surveillance pipeline.

Shallow embedding of the monitoring modules (`monitoring/whale_tracker.py`,
`monitoring/smart_filter.py`, `monitoring/book_imbalance.py`,
`monitoring/binance_processor.py`, `connectors/binance/websocket.py`,
`scripts/run_binance_monitor.py`).  Python floats are modelled as `ℚ`;
wall-clock instants (`datetime.now()`) are modelled as explicit `ℚ`
arguments counting seconds; Python dicts keyed by strings are modelled as
total functions with the dataclass default, and dicts keyed by prices as
association lists.
-/

set_option maxRecDepth 8000

namespace AutoTrade

/-- Python `int(x)` on a nonnegative-or-negative rational: truncation toward zero. -/
def pyTrunc (q : ℚ) : ℤ :=
  if 0 ≤ q then ⌊q⌋ else -⌊-q⌋

/-- Python `round(x, 4)`: round to 4 decimal places, ties to even
(the mathematical value; the source applies it to a float). -/
def roundHalfEven4 (q : ℚ) : ℚ :=
  let x : ℚ := q * 10000
  let f : ℤ := ⌊x⌋
  let r : ℤ :=
    if x - f < 1/2 then f
    else if x - f > 1/2 then f + 1
    else if f % 2 = 0 then f else f + 1
  (r : ℚ) / 10000

/-- `collections.deque(maxlen := n)` append: drop from the left when full. -/
def appendMax {α : Type} (n : ℕ) (l : List α) (x : α) : List α :=
  let l' := l ++ [x]
  if n < l'.length then l'.drop (l'.length - n) else l'

/-- Binary minimum on `ℚ`, written out so that the kernel can evaluate it. -/
def qmin (a b : ℚ) : ℚ := if a ≤ b then a else b

/-- Binary maximum on `ℚ`, written out so that the kernel can evaluate it. -/
def qmax (a b : ℚ) : ℚ := if a ≤ b then b else a

theorem qmin_fun_eq : qmin = fun (a b : ℚ) => min a b := by
  funext a b
  simp [qmin, min_def]

theorem qmax_fun_eq : qmax = fun (a b : ℚ) => max a b := by
  funext a b
  simp [qmax, max_def]

/-- Python `min` over a list of rationals (`min(prices)`); 0 on the
empty list, which the source never reaches. -/
def listMinQ : List ℚ → ℚ
  | [] => 0
  | h :: t => t.foldl qmin h

theorem foldl_min_le_init (l : List ℚ) (a : ℚ) : l.foldl min a ≤ a := by
  induction l generalizing a with
  | nil => simp
  | cons x xs ih =>
      calc (x :: xs).foldl min a = xs.foldl min (min a x) := rfl
        _ ≤ min a x := ih (min a x)
        _ ≤ a := min_le_left _ _

theorem foldl_min_le_mem (l : List ℚ) (a x : ℚ) (hx : x ∈ l) : l.foldl min a ≤ x := by
  induction l generalizing a with
  | nil => cases hx
  | cons y ys ih =>
      rcases List.mem_cons.mp hx with h | h
      · subst h
        calc (x :: ys).foldl min a = ys.foldl min (min a x) := rfl
          _ ≤ min a x := foldl_min_le_init ys (min a x)
          _ ≤ x := min_le_right _ _
      · exact ih (min a y) h

theorem listMinQ_le (l : List ℚ) (x : ℚ) (hx : x ∈ l) : listMinQ l ≤ x := by
  cases l with
  | nil => cases hx
  | cons h t =>
      rcases List.mem_cons.mp hx with rfl | hmem
      · simpa [listMinQ, qmin_fun_eq] using foldl_min_le_init t x
      · simpa [listMinQ, qmin_fun_eq] using foldl_min_le_mem t h x hmem

/-- Taker side of a trade. -/
inductive Side where
  | buy
  | sell
deriving DecidableEq, Repr

/-! ## Whale tracker (`monitoring/whale_tracker.py`) -/

/-- `LargeOrderRecord` dataclass. -/
structure LargeOrderRecord where
  timestamp : ℚ
  symbol : String
  side : Side
  value : ℚ
  slippage : ℚ
deriving DecidableEq, Repr

/-- `PriceRecord` dataclass. -/
structure PriceRecord where
  timestamp : ℚ
  price : ℚ
  volume : ℚ
deriving DecidableEq, Repr

/-- `StopHuntSignal` dataclass. -/
structure StopHuntSignal where
  symbol : String
  isDetected : Bool
  supportPrice : ℚ
  breakthroughPrice : ℚ
  reboundPrice : ℚ
  volumeSpikeRatio : ℚ
deriving DecidableEq, Repr

/-- `SymbolTracker` dataclass with its field defaults. -/
structure SymbolTracker where
  volumeEma : ℚ := 0
  volumeEmaAlpha : ℚ := 1/10
  lastVolumeUpdate : Option ℚ := none
  orders : List LargeOrderRecord := []
  priceHistory : List PriceRecord := []
  priceWalls : List (ℚ × ℚ × ℚ) := []
  dynamicThreshold : ℚ := 50000
deriving Repr

/-- `WhaleTracker.__init__` parameters (defaults of the constructor). -/
structure WhaleConfig where
  windowMinutes : ℚ := 30
  minOrdersForPattern : ℕ := 3
  accumulationRatio : ℚ := 8/10
  thresholdRatio : ℚ := 1/100
  wallPersistMinutes : ℚ := 5
  stopHuntReboundSeconds : ℚ := 10
  stopHuntVolumeRatio : ℚ := 3

def whaleConfigDefault : WhaleConfig := {}

/-- Mutable state of a `WhaleTracker` instance: `_trackers` (get-or-create
with the dataclass default) and `_all_orders` (maxlen 1000). -/
structure WhaleState where
  trackers : String → SymbolTracker
  allOrders : List LargeOrderRecord

def whaleInit : WhaleState :=
  { trackers := fun _ => {}, allOrders := [] }

/-- `WhaleTracker.update_volume`. -/
def updateVolume (cfg : WhaleConfig) (w : WhaleState) (symbol : String)
    (volume24h : ℚ) (now : ℚ) : WhaleState :=
  let tr := w.trackers symbol
  let ema := if tr.volumeEma ≤ 0 then volume24h
             else tr.volumeEmaAlpha * volume24h + (1 - tr.volumeEmaAlpha) * tr.volumeEma
  let tr' := { tr with
    volumeEma := ema
    dynamicThreshold := qmax (ema * cfg.thresholdRatio) 10000
    lastVolumeUpdate := some now }
  { w with trackers := Function.update w.trackers symbol tr' }

/-- `WhaleTracker.get_dynamic_threshold`. -/
def whaleDynamicThreshold (w : WhaleState) (symbol : String) : ℚ :=
  (w.trackers symbol).dynamicThreshold

/-- `WhaleTracker.is_large_order`. -/
def isLargeOrder (w : WhaleState) (symbol : String) (value : ℚ) : Bool :=
  whaleDynamicThreshold w symbol ≤ value

/-- `WhaleTracker.record_large_order`: returns whether the order was
recorded, and the updated state. -/
def recordLargeOrder (w : WhaleState) (symbol : String) (side : Side)
    (value slippage : ℚ) (now : ℚ) : Bool × WhaleState :=
  if isLargeOrder w symbol value then
    let record : LargeOrderRecord :=
      { timestamp := now, symbol := symbol, side := side, value := value, slippage := slippage }
    let tr := w.trackers symbol
    let tr' := { tr with orders := appendMax 100 tr.orders record }
    (true,
      { trackers := Function.update w.trackers symbol tr'
        allOrders := appendMax 1000 w.allOrders record })
  else (false, w)

/-- `WhaleTracker.update_price`. -/
def updatePrice (w : WhaleState) (symbol : String) (price volume : ℚ)
    (now : ℚ) : WhaleState :=
  let tr := w.trackers symbol
  let tr' := { tr with
    priceHistory := appendMax 3600 tr.priceHistory
      { timestamp := now, price := price, volume := volume } }
  { w with trackers := Function.update w.trackers symbol tr' }

/-- Association-list update used by `update_price_wall` for `size > 0` on an
existing key: replace the size, keep the recorded first-seen time. -/
def wallReplace (key size : ℚ) : List (ℚ × ℚ × ℚ) → List (ℚ × ℚ × ℚ)
  | [] => []
  | (p, s, f) :: rest =>
      if p = key then (p, size, f) :: rest else (p, s, f) :: wallReplace key size rest

/-- Association-list removal used by `update_price_wall` for `size = 0`
(`dict.pop(key, None)`). -/
def wallRemove (key : ℚ) : List (ℚ × ℚ × ℚ) → List (ℚ × ℚ × ℚ)
  | [] => []
  | (p, s, f) :: rest =>
      if p = key then rest else (p, s, f) :: wallRemove key rest

/-- Association-list lookup on the price-wall map. -/
def wallLookup (key : ℚ) : List (ℚ × ℚ × ℚ) → Option (ℚ × ℚ)
  | [] => none
  | (p, s, f) :: rest => if p = key then some (s, f) else wallLookup key rest

/-- `WhaleTracker.update_price_wall`. -/
def updatePriceWall (w : WhaleState) (symbol : String) (price size : ℚ)
    (now : ℚ) : WhaleState :=
  let tr := w.trackers symbol
  let priceKey := roundHalfEven4 price
  let walls :=
    if 0 < size then
      match wallLookup priceKey tr.priceWalls with
      | some _ => wallReplace priceKey size tr.priceWalls
      | none => tr.priceWalls ++ [(priceKey, size, now)]
    else
      wallRemove priceKey tr.priceWalls
  { w with trackers := Function.update w.trackers symbol { tr with priceWalls := walls } }

/-- `WhaleTracker.detect_stop_hunt`, translated line by line. -/
def detectStopHunt (cfg : WhaleConfig) (w : WhaleState) (symbol : String)
    (now : ℚ) : StopHuntSignal :=
  let tr := w.trackers symbol
  let nullSignal : StopHuntSignal :=
    { symbol := symbol, isDetected := false, supportPrice := 0,
      breakthroughPrice := 0, reboundPrice := 0, volumeSpikeRatio := 0 }
  if tr.priceHistory.length < 100 then nullSignal
  else
    let cutoff1h := now - 3600
    let recentPrices := tr.priceHistory.filter (fun p => cutoff1h ≤ p.timestamp)
    if recentPrices.length < 10 then nullSignal
    else
      let prices := recentPrices.map (·.price)
      let supportPrice := listMinQ prices
      let cutoffRecent := now - cfg.stopHuntReboundSeconds
      let veryRecent := recentPrices.filter (fun p => cutoffRecent ≤ p.timestamp)
      if veryRecent.length < 3 then nullSignal
      else
        let breakthrough := veryRecent.filter (fun p => p.price < supportPrice)
        if breakthrough.isEmpty then nullSignal
        else
          let breakthroughPrice := listMinQ (breakthrough.map (·.price))
          let firstBreakTs := (breakthrough.headD ⟨0, 0, 0⟩).timestamp
          let rebound := veryRecent.filter
            (fun p => supportPrice ≤ p.price ∧ firstBreakTs < p.timestamp)
          if rebound.isEmpty then nullSignal
          else
            let reboundPrice := (rebound.getLastD ⟨0, 0, 0⟩).price
            let avgVolume := (recentPrices.map (·.volume)).sum / recentPrices.length
            let recentVolume := (veryRecent.map (·.volume)).sum
            let volumeRatio :=
              recentVolume / (avgVolume * veryRecent.length + 1/1000000000)
            if volumeRatio < cfg.stopHuntVolumeRatio then nullSignal
            else
              { symbol := symbol, isDetected := true, supportPrice := supportPrice,
                breakthroughPrice := breakthroughPrice, reboundPrice := reboundPrice,
                volumeSpikeRatio := volumeRatio }

/-- The operations that mutate whale-tracker state. -/
inductive WhaleOp where
  | opUpdateVolume (symbol : String) (volume24h now : ℚ)
  | opRecordLargeOrder (symbol : String) (side : Side) (value slippage now : ℚ)
  | opUpdatePrice (symbol : String) (price volume now : ℚ)
  | opUpdatePriceWall (symbol : String) (price size now : ℚ)

/-- Apply one whale-tracker operation. -/
def applyWhaleOp (cfg : WhaleConfig) (w : WhaleState) : WhaleOp → WhaleState
  | .opUpdateVolume s v t => updateVolume cfg w s v t
  | .opRecordLargeOrder s sd v sl t => (recordLargeOrder w s sd v sl t).2
  | .opUpdatePrice s p v t => updatePrice w s p v t
  | .opUpdatePriceWall s p sz t => updatePriceWall w s p sz t

def applyWhaleOps (cfg : WhaleConfig) (w : WhaleState) (ops : List WhaleOp) : WhaleState :=
  ops.foldl (applyWhaleOp cfg) w

/-- Whether an operation is an `update_volume` call for the given symbol. -/
def isVolUpdateFor (symbol : String) : WhaleOp → Bool
  | .opUpdateVolume s _ _ => s = symbol
  | _ => false

end AutoTrade

namespace AutoTrade

/-! ### Stop-hunt: the breakthrough filter is always empty -/

theorem filter_lt_min_nil (recent sub : List PriceRecord)
    (hsub : ∀ p ∈ sub, p ∈ recent) :
    sub.filter (fun p => p.price < listMinQ (recent.map (·.price))) = [] := by
  apply List.filter_eq_nil_iff.mpr
  intro p hp
  have hmem : p.price ∈ recent.map (·.price) :=
    List.mem_map.mpr ⟨p, hsub p hp, rfl⟩
  have := listMinQ_le (recent.map (·.price)) p.price hmem
  simp only [decide_eq_true_eq]
  exact not_lt.mpr this

theorem detect_stop_hunt_never (cfg : WhaleConfig) (w : WhaleState)
    (symbol : String) (now : ℚ) :
    (detectStopHunt cfg w symbol now).isDetected = false := by
  unfold detectStopHunt
  simp only []
  split
  · rfl
  · split
    · rfl
    · split
      · rfl
      · split
        · rfl
        · rename_i h1 h2 h3 h4
          exfalso
          apply h4
          rw [filter_lt_min_nil _ _ (fun p hp => List.mem_of_mem_filter hp)]
          rfl

end AutoTrade

namespace AutoTrade

/-- The list `[x, x+1, ..., x+n-1]` of rationals. -/
def qRangeFrom (x : ℚ) : ℕ → List ℚ
  | 0 => []
  | n + 1 => x :: qRangeFrom (x + 1) n

/-- A concrete price history for the stop-hunt detector: 97 ticks at price
100 with unit volume (seconds 0–96), then a dip to 99 and a recovery back to
100 inside the final 10 seconds, each with volume 100 — a textbook stop hunt
relative to the prior one-hour low of 100. -/
def stopHuntFailingState : WhaleState :=
  let base := (qRangeFrom 0 97).foldl
    (fun w t => updatePrice w "BTC-USDT" 100 1 t) whaleInit
  let w1 := updatePrice base "BTC-USDT" 99 100 97
  let w2 := updatePrice w1 "BTC-USDT" 100 100 98
  updatePrice w2 "BTC-USDT" 100 100 99

/-- C2.  The stop-hunt detector can never fire: `support_price` is the
minimum over the trailing one-hour window *including* the last-10-seconds
records, so no record in those 10 seconds can be strictly below it and the
`breakthrough` list is always empty.  The first conjuncts evaluate a
concrete history that satisfies the specified conditions — prior one-hour
low 100, a dip to 99 within the last 10 seconds, a recovery back to 100,
and a volume spike (307 recent vs average 3.97/record) — where the claim
demands `is_detected = true`, yet the code returns a non-detected signal;
the last conjunct shows it returns non-detected on every input. -/
theorem stop_hunt_never_detects :
    ((stopHuntFailingState.trackers "BTC-USDT").priceHistory.length = 100 ∧
      listMinQ ((((stopHuntFailingState.trackers "BTC-USDT").priceHistory.filter
        (fun p => p.timestamp < 90)).map (·.price))) = 100 ∧
      listMinQ ((((stopHuntFailingState.trackers "BTC-USDT").priceHistory.filter
        (fun p => (90:ℚ) ≤ p.timestamp)).map (·.price))) = 99 ∧
      ((stopHuntFailingState.trackers "BTC-USDT").priceHistory.getLastD
        ⟨0, 0, 0⟩).price = 100 ∧
      ((((stopHuntFailingState.trackers "BTC-USDT").priceHistory.filter
        (fun p => (90:ℚ) ≤ p.timestamp)).map (·.volume))).sum = 307 ∧
      (((stopHuntFailingState.trackers "BTC-USDT").priceHistory.map (·.volume))).sum = 397 ∧
      (detectStopHunt whaleConfigDefault stopHuntFailingState "BTC-USDT" 100).isDetected
        = false) ∧
    ∀ (cfg : WhaleConfig) (w : WhaleState) (symbol : String) (now : ℚ),
      (detectStopHunt cfg w symbol now).isDetected = false := by
  refine ⟨⟨?_, ?_, ?_, ?_, ?_, ?_, detect_stop_hunt_never _ _ _ _⟩,
    detect_stop_hunt_never⟩ <;> with_unfolding_all decide

end AutoTrade

namespace AutoTrade

/-! ### Price-wall map lemmas -/

theorem wallLookup_eq_none_of_not_mem (key : ℚ) (l : List (ℚ × ℚ × ℚ))
    (h : key ∉ l.map (fun e => e.1)) : wallLookup key l = none := by
  induction l with
  | nil => rfl
  | cons e rest ih =>
      obtain ⟨p, s, f⟩ := e
      simp only [List.map_cons, List.mem_cons] at h
      push_neg at h
      simp only [wallLookup, if_neg (Ne.symm h.1)]
      exact ih h.2

theorem wallLookup_remove_self (key : ℚ) (l : List (ℚ × ℚ × ℚ))
    (h : (l.map (fun e => e.1)).Nodup) :
    wallLookup key (wallRemove key l) = none := by
  induction l with
  | nil => rfl
  | cons e rest ih =>
      obtain ⟨p, s, f⟩ := e
      simp only [List.map_cons, List.nodup_cons] at h
      by_cases hp : p = key
      · subst hp
        simp only [wallRemove, if_pos rfl]
        exact wallLookup_eq_none_of_not_mem p rest h.1
      · simp only [wallRemove, if_neg hp, wallLookup, if_neg hp]
        exact ih h.2

theorem wallLookup_append_self (key s t : ℚ) (l : List (ℚ × ℚ × ℚ))
    (h : wallLookup key l = none) :
    wallLookup key (l ++ [(key, s, t)]) = some (s, t) := by
  induction l with
  | nil => simp [wallLookup]
  | cons e rest ih =>
      obtain ⟨p, s', f'⟩ := e
      by_cases hp : p = key
      · simp only [wallLookup, if_pos hp] at h
        cases h
      · simp only [wallLookup, if_neg hp] at h
        simp only [List.cons_append, wallLookup, if_neg hp]
        exact ih h

theorem wallLookup_replace (key s s0 f0 : ℚ) (l : List (ℚ × ℚ × ℚ))
    (h : wallLookup key l = some (s0, f0)) :
    wallLookup key (wallReplace key s l) = some (s, f0) := by
  induction l with
  | nil => cases h
  | cons e rest ih =>
      obtain ⟨p, s', f'⟩ := e
      by_cases hp : p = key
      · simp only [wallLookup, if_pos hp] at h
        simp only [wallReplace, if_pos hp, wallLookup, if_pos hp]
        simp only [Option.some.injEq, Prod.mk.injEq] at h
        simp [h.2]
      · simp only [wallLookup, if_neg hp] at h
        simp only [wallReplace, if_neg hp, wallLookup, if_neg hp]
        exact ih h

/-- C9.  Removing a price level (`size = 0`) and then re-adding it with
`size > 0` yields a wall whose `first_seen` is the timestamp of the later
event, while updating an existing wall with a new `size > 0` keeps the
original `first_seen`. -/
theorem price_wall_first_seen (w : WhaleState) (symbol : String)
    (price s s' s0 f0 t1 t2 t3 : ℚ)
    (hnodup : (((w.trackers symbol).priceWalls.map (fun e => e.1))).Nodup)
    (hs : 0 < s)
    (hex : wallLookup (roundHalfEven4 price) (w.trackers symbol).priceWalls
      = some (s0, f0))
    (hs' : 0 < s') :
    wallLookup (roundHalfEven4 price)
      (((updatePriceWall (updatePriceWall w symbol price 0 t1) symbol price s t2).trackers
        symbol).priceWalls) = some (s, t2) ∧
    wallLookup (roundHalfEven4 price)
      (((updatePriceWall w symbol price s' t3).trackers symbol).priceWalls)
      = some (s', f0) := by
  constructor
  · have hrm : wallLookup (roundHalfEven4 price)
        (wallRemove (roundHalfEven4 price) (w.trackers symbol).priceWalls) = none :=
      wallLookup_remove_self _ _ hnodup
    simp only [updatePriceWall, Function.update_same, if_neg (lt_irrefl (0:ℚ)),
      if_pos hs, hrm]
    exact wallLookup_append_self _ _ _ _ hrm
  · simp only [updatePriceWall, Function.update_same, if_pos hs', hex]
    exact wallLookup_replace _ _ _ _ _ hex

/-- Witness for C9 at a concrete state: a wall at price 100 first seen at
time 10, removed and re-added at time 20, and separately resized. -/
theorem price_wall_first_seen_witness :
    ((((updatePriceWall whaleInit "ETH-USDT" 100 5 10).trackers
        "ETH-USDT").priceWalls.map (fun e => e.1)).Nodup ∧
      (0:ℚ) < 7 ∧
      wallLookup (roundHalfEven4 100)
        ((updatePriceWall whaleInit "ETH-USDT" 100 5 10).trackers "ETH-USDT").priceWalls
        = some (5, 10) ∧
      (0:ℚ) < 9) ∧
    wallLookup (roundHalfEven4 100)
      (((updatePriceWall
          (updatePriceWall (updatePriceWall whaleInit "ETH-USDT" 100 5 10)
            "ETH-USDT" 100 0 15)
          "ETH-USDT" 100 7 20).trackers "ETH-USDT").priceWalls) = some (7, 20) ∧
    wallLookup (roundHalfEven4 100)
      (((updatePriceWall (updatePriceWall whaleInit "ETH-USDT" 100 5 10)
          "ETH-USDT" 100 9 30).trackers "ETH-USDT").priceWalls) = some (9, 10) :=
  ⟨⟨by with_unfolding_all decide, by with_unfolding_all decide,
    by with_unfolding_all decide, by with_unfolding_all decide⟩,
    price_wall_first_seen (updatePriceWall whaleInit "ETH-USDT" 100 5 10)
      "ETH-USDT" 100 7 9 5 10 15 20 30
      (by with_unfolding_all decide) (by with_unfolding_all decide)
      (by with_unfolding_all decide) (by with_unfolding_all decide)⟩

end AutoTrade

namespace AutoTrade

theorem applyWhaleOp_keeps_threshold (cfg : WhaleConfig) (w : WhaleState)
    (sym : String) (op : WhaleOp) (h : isVolUpdateFor sym op = false) :
    ((applyWhaleOp cfg w op).trackers sym).dynamicThreshold
      = ((w.trackers sym).dynamicThreshold) := by
  cases op with
  | opUpdateVolume s v t =>
      simp only [isVolUpdateFor, decide_eq_false_iff_not] at h
      simp only [applyWhaleOp, updateVolume]
      rw [Function.update_noteq (fun hsym => h (hsym.symm))]
  | opRecordLargeOrder s sd v sl t =>
      simp only [applyWhaleOp, recordLargeOrder]
      by_cases hl : isLargeOrder w s v
      · simp only [if_pos hl]
        by_cases hs : s = sym
        · subst hs
          rw [Function.update_same]
        · rw [Function.update_noteq (fun hsym => hs (hsym.symm))]
      · simp only [if_neg hl]
  | opUpdatePrice s p v t =>
      simp only [applyWhaleOp, updatePrice]
      by_cases hs : s = sym
      · subst hs
        rw [Function.update_same]
      · rw [Function.update_noteq (fun hsym => hs (hsym.symm))]
  | opUpdatePriceWall s p sz t =>
      simp only [applyWhaleOp, updatePriceWall]
      by_cases hs : s = sym
      · subst hs
        rw [Function.update_same]
      · rw [Function.update_noteq (fun hsym => hs (hsym.symm))]

theorem applyWhaleOps_keeps_threshold (cfg : WhaleConfig) (sym : String)
    (ops : List WhaleOp) (w : WhaleState)
    (h : ∀ op ∈ ops, isVolUpdateFor sym op = false) :
    ((applyWhaleOps cfg w ops).trackers sym).dynamicThreshold
      = ((w.trackers sym).dynamicThreshold) := by
  induction ops generalizing w with
  | nil => rfl
  | cons op rest ih =>
      have hstep := applyWhaleOp_keeps_threshold cfg w sym op (h op (List.mem_cons_self _ _))
      have := ih (applyWhaleOp cfg w op) (fun o ho => h o (List.mem_cons_of_mem _ ho))
      simpa [applyWhaleOps] using this.trans hstep

/-- C10.  If `update_volume` was never called for a symbol, the dynamic
large-order threshold is the `SymbolTracker` constructor default of $50,000
(not the $10,000 floor of the dynamic formula), so for any trade of that
symbol with notional strictly below $50,000 `is_large_order` is false and
`record_large_order` refuses to record it. -/
theorem whale_default_threshold_before_volume (cfg : WhaleConfig)
    (ops : List WhaleOp) (sym : String)
    (h : ∀ op ∈ ops, isVolUpdateFor sym op = false)
    (value : ℚ) (hv : value < 50000) (side : Side) (sl t : ℚ) :
    whaleDynamicThreshold (applyWhaleOps cfg whaleInit ops) sym = 50000 ∧
    isLargeOrder (applyWhaleOps cfg whaleInit ops) sym value = false ∧
    (recordLargeOrder (applyWhaleOps cfg whaleInit ops) sym side value sl t).1 = false := by
  have hthr : whaleDynamicThreshold (applyWhaleOps cfg whaleInit ops) sym = 50000 := by
    unfold whaleDynamicThreshold
    rw [applyWhaleOps_keeps_threshold cfg sym ops whaleInit h]
    rfl
  have hlarge : isLargeOrder (applyWhaleOps cfg whaleInit ops) sym value = false := by
    simp only [isLargeOrder, hthr, decide_eq_false_iff_not]
    exact not_le.mpr hv
  refine ⟨hthr, hlarge, ?_⟩
  simp only [recordLargeOrder, hlarge]
  simp

/-- Witness for C10: a symbol that saw price updates, a wall update, a large
recorded order and an `update_volume` call for a *different* symbol still has
the $50,000 default threshold, and a $49,999 trade is not recorded. -/
theorem whale_default_threshold_witness :
    ((∀ op ∈ [WhaleOp.opUpdatePrice "ETH-USDT" 3500 100000 0,
        WhaleOp.opUpdatePriceWall "ETH-USDT" 3500 2 0,
        WhaleOp.opRecordLargeOrder "ETH-USDT" Side.buy 60000 2 1,
        WhaleOp.opUpdateVolume "BTC-USDT" 5000000 2],
        isVolUpdateFor "ETH-USDT" op = false) ∧ (49999 : ℚ) < 50000) ∧
    whaleDynamicThreshold
      (applyWhaleOps whaleConfigDefault whaleInit
        [WhaleOp.opUpdatePrice "ETH-USDT" 3500 100000 0,
          WhaleOp.opUpdatePriceWall "ETH-USDT" 3500 2 0,
          WhaleOp.opRecordLargeOrder "ETH-USDT" Side.buy 60000 2 1,
          WhaleOp.opUpdateVolume "BTC-USDT" 5000000 2]) "ETH-USDT" = 50000 ∧
    isLargeOrder
      (applyWhaleOps whaleConfigDefault whaleInit
        [WhaleOp.opUpdatePrice "ETH-USDT" 3500 100000 0,
          WhaleOp.opUpdatePriceWall "ETH-USDT" 3500 2 0,
          WhaleOp.opRecordLargeOrder "ETH-USDT" Side.buy 60000 2 1,
          WhaleOp.opUpdateVolume "BTC-USDT" 5000000 2]) "ETH-USDT" 49999 = false ∧
    (recordLargeOrder
      (applyWhaleOps whaleConfigDefault whaleInit
        [WhaleOp.opUpdatePrice "ETH-USDT" 3500 100000 0,
          WhaleOp.opUpdatePriceWall "ETH-USDT" 3500 2 0,
          WhaleOp.opRecordLargeOrder "ETH-USDT" Side.buy 60000 2 1,
          WhaleOp.opUpdateVolume "BTC-USDT" 5000000 2]) "ETH-USDT"
      Side.sell 49999 1 3).1 = false :=
  ⟨⟨by intro op hop; fin_cases hop <;> with_unfolding_all decide,
    by with_unfolding_all decide⟩,
    whale_default_threshold_before_volume whaleConfigDefault _ "ETH-USDT"
      (by intro op hop; fin_cases hop <;> with_unfolding_all decide)
      49999 (by with_unfolding_all decide) Side.sell 1 3⟩

end AutoTrade

namespace AutoTrade

/-! ## Smart alert filter (`monitoring/smart_filter.py`) -/

/-- `TimestampedValue` dataclass (ordered by `value`). -/
structure TSValue where
  value : ℚ
  timestamp : ℚ
deriving DecidableEq, Repr

/-- `SortedList.add`: insert keeping the list sorted by `value`, after any
equal values (`bisect_right`). -/
def insertTS (item : TSValue) : List TSValue → List TSValue
  | [] => [item]
  | y :: ys => if y.value ≤ item.value then y :: insertTS item ys else item :: y :: ys

/-- `SymbolStats.__init__` state: the value-sorted list, the insertion-order
queue used for TTL eviction, and the per-symbol cooldown fields. -/
structure SymbolStats where
  maxSize : ℕ := 1000
  ttlSeconds : ℚ := 3600
  sortedValues : List TSValue := []
  timeQueue : List TSValue := []
  lastAlertTime : Option ℚ := none
  alertCount1h : ℕ := 0
deriving Repr

/-- `SymbolStats.add`: insert, then enforce the count cap by evicting the
oldest entry. -/
def statsAdd (st : SymbolStats) (value now : ℚ) : SymbolStats :=
  let item : TSValue := ⟨value, now⟩
  let sv := insertTS item st.sortedValues
  let tq := st.timeQueue ++ [item]
  if st.maxSize < sv.length then
    match tq with
    | [] => { st with sortedValues := sv, timeQueue := [] }
    | oldest :: rest =>
        { st with sortedValues := sv.erase oldest, timeQueue := rest }
  else { st with sortedValues := sv, timeQueue := tq }

/-- The `while` loop of `SymbolStats.cleanup_expired`: pop expired entries
from the head of the time queue, erasing each from the sorted list. -/
def cleanupLoop (cutoff : ℚ) : List TSValue → List TSValue → List TSValue × List TSValue
  | [], sv => ([], sv)
  | x :: rest, sv =>
      if x.timestamp < cutoff then cleanupLoop cutoff rest (sv.erase x)
      else (x :: rest, sv)

/-- `SymbolStats.cleanup_expired`. -/
def cleanupExpired (st : SymbolStats) (now : ℚ) : SymbolStats :=
  let cutoff := now - st.ttlSeconds
  let p := cleanupLoop cutoff st.timeQueue st.sortedValues
  { st with timeQueue := p.1, sortedValues := p.2 }

/-- `SymbolStats.get_percentile` (mutates via `cleanup_expired`). -/
def getPercentile (st : SymbolStats) (pct now : ℚ) : Option ℚ × SymbolStats :=
  let st' := cleanupExpired st now
  if st'.sortedValues.isEmpty then (none, st')
  else
    let n := st'.sortedValues.length
    let index := min ((pyTrunc ((n : ℚ) * pct / 100)).toNat) (n - 1)
    (some ((st'.sortedValues.getD index ⟨0, 0⟩).value), st')

/-- `SmartAlertFilter.__init__` parameters and the major-symbol set. -/
structure FilterConfig where
  windowSize : ℕ := 1000
  ttlSeconds : ℚ := 3600
  percentile : ℚ := 95
  minSamples : ℕ := 100
  cooldownSeconds : ℚ := 60
  fallbackDefault : ℚ := 2
  fallbackMajor : ℚ := 3/2
  majorSymbols : List String :=
    ["BTC", "ETH", "SOL", "BNB", "XRP", "DOGE", "ADA", "AVAX", "DOT", "LINK"]

def filterConfigDefault : FilterConfig := {}

/-- `SmartAlertFilter._get_base_symbol`: `symbol.split("-")[0].split("/")[0].upper()`. -/
def baseSymbol (s : String) : String :=
  ((((s.splitOn "-").headD "").splitOn "/").headD "").toUpper

/-- `SmartAlertFilter._is_major`. -/
def isMajor (cfg : FilterConfig) (s : String) : Bool :=
  cfg.majorSymbols.contains (baseSymbol s)

/-- `SmartAlertFilter._stats` dict, get-or-create with the constructor
arguments. -/
structure SmartFilterState where
  stats : String → SymbolStats

def smartFilterInit (cfg : FilterConfig) : SmartFilterState :=
  { stats := fun _ =>
      { maxSize := cfg.windowSize, ttlSeconds := cfg.ttlSeconds } }

/-- `SmartAlertFilter.record_slippage`. -/
def recordSlippage (f : SmartFilterState) (symbol : String)
    (slippage now : ℚ) : SmartFilterState :=
  { stats := Function.update f.stats symbol (statsAdd (f.stats symbol) slippage now) }

/-- `SmartAlertFilter.get_dynamic_threshold` (the `source` log string is
omitted; the threshold and state effects are modelled). -/
def getDynamicThreshold (cfg : FilterConfig) (f : SmartFilterState)
    (symbol : String) (now : ℚ) : ℚ × SmartFilterState :=
  let st := f.stats symbol
  if st.sortedValues.length < cfg.minSamples then
    (if isMajor cfg symbol then cfg.fallbackMajor else cfg.fallbackDefault, f)
  else
    let p := getPercentile st cfg.percentile now
    let f' : SmartFilterState := { stats := Function.update f.stats symbol p.2 }
    match p.1 with
    | none => (if isMajor cfg symbol then cfg.fallbackMajor else cfg.fallbackDefault, f')
    | some p95 =>
        let minThreshold : ℚ := if isMajor cfg symbol then 1/2 else 1
        (qmax p95 minThreshold, f')

/-- `SmartAlertFilter.should_alert`. -/
def shouldAlert (cfg : FilterConfig) (f : SmartFilterState) (symbol : String)
    (slippage : ℚ) (now : ℚ) : Bool × SmartFilterState :=
  let st := f.stats symbol
  let blocked : Bool :=
    match st.lastAlertTime with
    | some t => now - t < cfg.cooldownSeconds
    | none => false
  if blocked then (false, f)
  else
    let p := getDynamicThreshold cfg f symbol now
    if p.1 ≤ slippage then
      let st' := p.2.stats symbol
      (true,
        { stats := Function.update p.2.stats symbol
            { st' with lastAlertTime := some now,
                       alertCount1h := st'.alertCount1h + 1 } })
    else (false, p.2)

end AutoTrade

namespace AutoTrade

theorem cleanupLoop_id (cutoff : ℚ) (tq sv : List TSValue)
    (h : ∀ x ∈ tq, ¬(x.timestamp < cutoff)) :
    cleanupLoop cutoff tq sv = (tq, sv) := by
  cases tq with
  | nil => rfl
  | cons x rest =>
      simp only [cleanupLoop, if_neg (h x (List.mem_cons_self _ _))]

theorem getD_map_value (l : List TSValue) (i : ℕ) :
    (l.map (fun x => x.value)).getD i 0 = (l.getD i ⟨0, 0⟩).value := by
  induction l generalizing i with
  | nil => cases i <;> rfl
  | cons x xs ih =>
      cases i with
      | zero => rfl
      | succ n => simpa [List.getD] using ih n

/-- The 95th percentile of an (already value-sorted) sample list, following
the spec: the element at index `min(int(n·95/100), n−1)`. -/
def specPercentile95 (samples : List ℚ) : ℚ :=
  samples.getD
    (min ((pyTrunc ((samples.length : ℚ) * 95 / 100)).toNat) (samples.length - 1)) 0

/-- C6.  With the default configuration, as long as no retained sample has
expired, the adaptive slippage threshold is the fallback (1.5 for major
assets, 2.0 otherwise) when the symbol holds fewer than 100 samples, and
`max(P95 of the retained samples, floor)` with floor 0.5 (major) / 1.0
(other) otherwise. -/
theorem smart_dynamic_threshold (f : SmartFilterState) (symbol : String) (now : ℚ)
    (hfresh : ∀ x ∈ (f.stats symbol).timeQueue,
      ¬(x.timestamp < now - (f.stats symbol).ttlSeconds)) :
    (getDynamicThreshold filterConfigDefault f symbol now).1 =
      if (f.stats symbol).sortedValues.length < 100 then
        (if isMajor filterConfigDefault symbol then 3/2 else 2)
      else
        qmax (specPercentile95 ((f.stats symbol).sortedValues.map (fun x => x.value)))
          (if isMajor filterConfigDefault symbol then 1/2 else 1) := by
  have hclean : cleanupExpired (f.stats symbol) now = f.stats symbol := by
    simp only [cleanupExpired]
    rw [cleanupLoop_id _ _ _ hfresh]
  by_cases hlen : (f.stats symbol).sortedValues.length < 100
  · simp only [getDynamicThreshold, filterConfigDefault]
    rw [if_pos hlen, if_pos hlen]
  · have hne : (f.stats symbol).sortedValues ≠ [] := by
      intro hnil
      rw [hnil] at hlen
      simp at hlen
    have hperc : getPercentile (f.stats symbol) 95 now =
        (some (((f.stats symbol).sortedValues.getD
          (min ((pyTrunc (((f.stats symbol).sortedValues.length : ℚ) * 95 / 100)).toNat)
            ((f.stats symbol).sortedValues.length - 1)) ⟨0, 0⟩).value),
          f.stats symbol) := by
      unfold getPercentile
      rw [hclean]
      rw [if_neg (by simpa [List.isEmpty_iff] using hne)]
    simp only [getDynamicThreshold, filterConfigDefault]
    rw [if_neg hlen, if_neg hlen]
    simp only [hperc]
    congr 1
    rw [specPercentile95, getD_map_value, List.length_map]

/-- 100 slippage samples `0.0, 0.1, ..., 9.9` recorded for ETH-USDT at
seconds 0–99. -/
def c6WitnessFilter : SmartFilterState :=
  (qRangeFrom 0 100).foldl
    (fun f v => recordSlippage f "ETH-USDT" (v / 10) v)
    (smartFilterInit filterConfigDefault)

theorem smart_dynamic_threshold_witness :
    (∀ x ∈ (c6WitnessFilter.stats "ETH-USDT").timeQueue,
      ¬(x.timestamp < 100 - (c6WitnessFilter.stats "ETH-USDT").ttlSeconds)) ∧
    (getDynamicThreshold filterConfigDefault c6WitnessFilter "ETH-USDT" 100).1 =
      (if (c6WitnessFilter.stats "ETH-USDT").sortedValues.length < 100 then
        (if isMajor filterConfigDefault "ETH-USDT" then 3/2 else 2)
      else
        qmax (specPercentile95
            ((c6WitnessFilter.stats "ETH-USDT").sortedValues.map (fun x => x.value)))
          (if isMajor filterConfigDefault "ETH-USDT" then 1/2 else 1)) ∧
    (getDynamicThreshold filterConfigDefault c6WitnessFilter "ETH-USDT" 100).1 = 19/2 :=
  ⟨by with_unfolding_all decide,
    smart_dynamic_threshold c6WitnessFilter "ETH-USDT" 100 (by with_unfolding_all decide),
    by with_unfolding_all decide⟩

end AutoTrade

namespace AutoTrade

/-! ## Binance processor (`monitoring/binance_processor.py`) -/

/-- Alert severity levels. -/
inductive AlertLevel where
  | low
  | medium
  | high
deriving DecidableEq, Repr

/-- `BinanceProcessor.__init__` threshold configuration (the `config.py`
defaults). -/
structure ProcConfig where
  slippageLow : ℚ := 1/2
  slippageMedium : ℚ := 2
  slippageHigh : ℚ := 10
  minOrderSpot : ℚ := 50000
  minOrderFutures : ℚ := 20000
  orderbookDepth : ℕ := 50
  skipTopLevels : ℕ := 1
  cooldownSeconds : ℚ := 120

def procConfigDefault : ProcConfig := {}

/-- `BinanceProcessor.get_alert_level`. -/
def getAlertLevel (cfg : ProcConfig) (slippage : ℚ) : Option AlertLevel :=
  if cfg.slippageHigh ≤ slippage then some .high
  else if cfg.slippageMedium ≤ slippage then some .medium
  else if cfg.slippageLow ≤ slippage then some .low
  else none

/-- `BinanceProcessor.get_min_order`. -/
def getMinOrder (cfg : ProcConfig) (market : String) : ℚ :=
  if market = "spot" then cfg.minOrderSpot else cfg.minOrderFutures

/-- The fill loop of `BinanceProcessor.calculate_slippage`: walk the book
accumulating quantity and value until the requested notional is filled. -/
def slippageWalk : List (ℚ × ℚ) → ℚ → ℚ → ℚ → ℚ × ℚ
  | [], _, totalQty, totalValue => (totalQty, totalValue)
  | (price, qty) :: rest, remaining, totalQty, totalValue =>
      let levelValue := price * qty
      if remaining ≤ levelValue then
        (totalQty + remaining / price, totalValue + remaining)
      else
        slippageWalk rest (remaining - levelValue) (totalQty + qty) (totalValue + levelValue)

/-- `BinanceProcessor.calculate_slippage` on the already-selected book side:
returns `(slippage percent, vwap)`, or `(0, 0)` when the book is missing or
holds fewer than `min_levels + skip` levels. -/
def calculateSlippage (cfg : ProcConfig) (orderbook : List (ℚ × ℚ))
    (orderValue : ℚ) : ℚ × ℚ :=
  if orderbook.isEmpty then (0, 0)
  else
    let minLevels : ℕ := 10
    let skip := cfg.skipTopLevels
    if orderbook.length < minLevels + skip then (0, 0)
    else
      let currentPrice := (orderbook.getD skip (0, 0)).1
      let walk := slippageWalk (orderbook.drop skip) orderValue 0 0
      if walk.1 ≤ 0 then (0, 0)
      else
        let vwap := walk.2 / walk.1
        (|vwap - currentPrice| / currentPrice * 100, vwap)

/-- Mutable state of a `BinanceProcessor`, including the global smart filter
and whale tracker it drives. -/
structure ProcState where
  orderbookBids : String → List (ℚ × ℚ)
  orderbookAsks : String → List (ℚ × ℚ)
  priceCache : String → Option ℚ
  alertCooldown : String → Option ℚ
  statTrades : ℕ
  statAlertsLow : ℕ
  statAlertsMedium : ℕ
  statAlertsHigh : ℕ
  smartFilter : SmartFilterState
  whale : WhaleState

def procInit : ProcState :=
  { orderbookBids := fun _ => []
    orderbookAsks := fun _ => []
    priceCache := fun _ => none
    alertCooldown := fun _ => none
    statTrades := 0
    statAlertsLow := 0
    statAlertsMedium := 0
    statAlertsHigh := 0
    smartFilter := smartFilterInit filterConfigDefault
    whale := whaleInit }

/-- `BinanceProcessor.update_orderbook` (full replacement, dropping zero
sizes, truncated to the configured depth; an empty side is left untouched). -/
def updateOrderbook (cfg : ProcConfig) (st : ProcState) (cacheKey : String)
    (bids asks : List (ℚ × ℚ)) : ProcState :=
  let newBids := (bids.filter (fun e => 0 < e.2)).take cfg.orderbookDepth
  let newAsks := (asks.filter (fun e => 0 < e.2)).take cfg.orderbookDepth
  let st1 :=
    if bids.isEmpty then st
    else { st with orderbookBids := Function.update st.orderbookBids cacheKey newBids }
  if asks.isEmpty then st1
  else { st1 with orderbookAsks := Function.update st1.orderbookAsks cacheKey newAsks }

/-- `BinanceProcessor.is_in_cooldown`. -/
def isInCooldown (cfg : ProcConfig) (st : ProcState) (key : String) (now : ℚ) : Bool :=
  match st.alertCooldown key with
  | none => false
  | some t => now - t < cfg.cooldownSeconds

/-- `BinanceProcessor.set_cooldown`. -/
def setCooldown (st : ProcState) (key : String) (now : ℚ) : ProcState :=
  { st with alertCooldown := Function.update st.alertCooldown key (some now) }

/-- The deduplication key `f"{market}:{symbol}:trade:{int(price)}"`.
The taker side is not part of the key. -/
def tradeKey (market symbol : String) (price : ℚ) : String :=
  market ++ ":" ++ symbol ++ ":trade:" ++ toString (pyTrunc price)

/-- A trade alert as assembled by `_send_trade_alert`. -/
structure TradeAlert where
  symbol : String
  side : String
  price : ℚ
  size : ℚ
  value : ℚ
  slippage : ℚ
  market : String
  level : AlertLevel
deriving DecidableEq, Repr

/-- `side = "BUY" if is_buy else "SELL"`. -/
def sideStr (isBuy : Bool) : String := if isBuy then "BUY" else "SELL"

/-- `"buy" if is_buy else "sell"` as passed to the whale tracker. -/
def sideOf (isBuy : Bool) : Side := if isBuy then Side.buy else Side.sell

/-- Book-side selection inside `calculate_slippage`: a buy sweeps the asks,
a sell the bids. -/
def selectBook (asks bids : List (ℚ × ℚ)) (isBuy : Bool) : List (ℚ × ℚ) :=
  if isBuy then asks else bids

/-- The per-severity counter bump of `process_trade`. -/
def bumpStats (st : ProcState) (level : AlertLevel) : ProcState :=
  match level with
  | .high => { st with statAlertsHigh := st.statAlertsHigh + 1 }
  | .medium => { st with statAlertsMedium := st.statAlertsMedium + 1 }
  | .low => { st with statAlertsLow := st.statAlertsLow + 1 }

/-- `BinanceProcessor.process_trade`: returns the updated state and the
alert sent, if any. -/
def processTrade (cfg : ProcConfig) (fcfg : FilterConfig) (st : ProcState)
    (symbol : String) (price size : ℚ) (isBuyerMaker : Bool) (market : String)
    (now : ℚ) : ProcState × Option TradeAlert :=
  let st0 := { st with statTrades := st.statTrades + 1 }
  let value := price * size
  let isBuy := !isBuyerMaker
  let cacheKey := market ++ ":" ++ symbol
  let st1 := { st0 with priceCache := Function.update st0.priceCache cacheKey (some price) }
  let st2 := { st1 with whale := updatePrice st1.whale symbol price value now }
  if value < getMinOrder cfg market then (st2, none)
  else
    let orderbook := selectBook (st2.orderbookAsks cacheKey) (st2.orderbookBids cacheKey) isBuy
    let sv := calculateSlippage cfg orderbook value
    let st3 := { st2 with smartFilter := recordSlippage st2.smartFilter symbol sv.1 now }
    let sa := shouldAlert fcfg st3.smartFilter symbol sv.1 now
    let st4 := { st3 with smartFilter := sa.2 }
    if !sa.1 then (st4, none)
    else
      match getAlertLevel cfg sv.1 with
      | none => (st4, none)
      | some level =>
          let key := tradeKey market symbol price
          if isInCooldown cfg st4 key now then (st4, none)
          else
            let st5 := { st4 with whale :=
              (recordLargeOrder st4.whale symbol (sideOf isBuy) value sv.1 now).2 }
            let st6 := bumpStats st5 level
            let alert : TradeAlert :=
              { symbol := symbol, side := sideStr isBuy, price := price, size := size,
                value := value, slippage := sv.1, market := market, level := level }
            (setCooldown st6 key now, some alert)

end AutoTrade

namespace AutoTrade

/-- The ask ladder of spec scenario S1. -/
def s1Ladder : List (ℚ × ℚ) := [(100, 100), (201/2, 100), (101, 1000)]

/-- Processor state holding the S1 ask ladder for `spot:BTCUSDT`. -/
def s1State : ProcState :=
  updateOrderbook procConfigDefault procInit "spot:BTCUSDT" [] s1Ladder

/-- C1 counterexample.  On the literal S1 inputs the slippage computation
does not return 0.85% (it returns 0, since the 3-level ladder is below the
`min_levels + skip_top_levels = 11` floor), and `process_trade` emits no
alert at all, contradicting "exactly one Low-severity alert". -/
theorem s1_counterexample :
    (calculateSlippage procConfigDefault s1Ladder 100000).1 ≠ 17/20 ∧
    (processTrade procConfigDefault filterConfigDefault s1State
      "BTCUSDT" 100 1000 false "spot" 0).2 = none := by
  constructor
  · with_unfolding_all decide
  · with_unfolding_all decide

/-- C1 amended.  With `skipTop = 1` and `minLevels = 10`, the 3-level S1
ladder is insufficient depth: `calculate_slippage` returns `(0, 0)`, and the
S1 trade (side BUY, price 100, size 1000, notional $100,000 ≥ spotMin) flows
through `process_trade` without producing any alert; the low-alert counter
stays 0. -/
theorem s1_insufficient_depth :
    s1Ladder.length < 10 + procConfigDefault.skipTopLevels ∧
    calculateSlippage procConfigDefault s1Ladder 100000 = (0, 0) ∧
    (processTrade procConfigDefault filterConfigDefault s1State
      "BTCUSDT" 100 1000 false "spot" 0).2 = none ∧
    (processTrade procConfigDefault filterConfigDefault s1State
      "BTCUSDT" 100 1000 false "spot" 0).1.statAlertsLow = 0 := by
  refine ⟨?_, ?_, ?_, ?_⟩ <;> with_unfolding_all decide

theorem processTrade_emit_sets_cooldown (cfg : ProcConfig) (fcfg : FilterConfig)
    (st : ProcState) (symbol : String) (price size : ℚ) (bm : Bool)
    (market : String) (now : ℚ)
    (h : ((processTrade cfg fcfg st symbol price size bm market now).2).isSome = true) :
    (processTrade cfg fcfg st symbol price size bm market now).1.alertCooldown
      (tradeKey market symbol price) = some now := by
  simp only [processTrade] at h ⊢
  split at h
  · simp at h
  · rename_i hmin
    split at h
    · simp at h
    · rename_i hsa
      split at h
      · simp at h
      · rename_i level heq
        split at h
        · simp at h
        · rename_i hcool
          rw [if_neg hmin, if_neg hsa, if_neg hcool]
          simp [setCooldown, Function.update_same]

/-- C3 amended.  The trade-alert deduplication key is
`market:symbol:trade:int(price)` — the taker side is *not* part of the key —
and once `process_trade` emits an alert, any further trade of the same
market and symbol whose truncated price matches (any side, any size) is
suppressed until `cooldownSeconds` (120) have elapsed. -/
theorem trade_alert_dedup (fcfg : FilterConfig) (st : ProcState) (symbol : String)
    (p1 s1 : ℚ) (bm1 : Bool) (market : String) (t1 : ℚ)
    (h1 : ((processTrade procConfigDefault fcfg st symbol p1 s1 bm1 market t1).2).isSome = true)
    (p2 s2 : ℚ) (bm2 : Bool) (t2 : ℚ)
    (hkey : pyTrunc p2 = pyTrunc p1) (_ht1 : t1 ≤ t2) (ht2 : t2 - t1 < 120) :
    (processTrade procConfigDefault fcfg
      (processTrade procConfigDefault fcfg st symbol p1 s1 bm1 market t1).1
      symbol p2 s2 bm2 market t2).2 = none := by
  have hcool := processTrade_emit_sets_cooldown procConfigDefault fcfg st symbol
    p1 s1 bm1 market t1 h1
  set st' := (processTrade procConfigDefault fcfg st symbol p1 s1 bm1 market t1).1
    with hst'
  have hkey2 : tradeKey market symbol p2 = tradeKey market symbol p1 := by
    unfold tradeKey
    rw [hkey]
  have hic : isInCooldown procConfigDefault st' (tradeKey market symbol p2) t2 = true := by
    unfold isInCooldown
    rw [hkey2, hcool]
    simp only [decide_eq_true_eq]
    exact ht2
  simp only [processTrade]
  split
  · rfl
  · split
    · rfl
    · split
      · rfl
      · split
        · rfl
        · rename_i hnc
          exact absurd hic hnc

end AutoTrade

namespace AutoTrade

/-- An 11-level ask ladder (top level skipped by `skip_top_levels = 1`);
sweeping $100,000 from level 1 yields ≈8.91% slippage. -/
def c3Asks : List (ℚ × ℚ) :=
  [(99, 1), (100, 100), (110, 10000), (120, 1), (121, 1), (122, 1),
    (123, 1), (124, 1), (125, 1), (126, 1), (127, 1)]

/-- An 11-level bid ladder; sweeping $100,000 from level 1 yields ≈9.09%
slippage. -/
def c3Bids : List (ℚ × ℚ) :=
  [(101, 1), (100, 100), (90, 10000), (80, 1), (79, 1), (78, 1),
    (77, 1), (76, 1), (75, 1), (74, 1), (73, 1)]

/-- Processor state holding both ladders for `spot:FOOUSDT`. -/
def c3State : ProcState :=
  updateOrderbook procConfigDefault procInit "spot:FOOUSDT" c3Bids c3Asks

/-- C3 counterexample.  A BUY trade at time 0 emits an alert; the SELL trade
of the same symbol, price and size at time 61 — which differs only in taker
side and would itself alert on a fresh state (last conjunct) — is
nevertheless suppressed, because the dedup key
`market:symbol:trade:int(price)` does not contain the side. -/
theorem dedup_side_counterexample :
    tradeKey "spot" "FOOUSDT" 100 = "spot:FOOUSDT:trade:100" ∧
    ((processTrade procConfigDefault filterConfigDefault c3State
      "FOOUSDT" 100 1000 false "spot" 0).2).isSome = true ∧
    (processTrade procConfigDefault filterConfigDefault
      (processTrade procConfigDefault filterConfigDefault c3State
        "FOOUSDT" 100 1000 false "spot" 0).1
      "FOOUSDT" 100 1000 true "spot" 61).2 = none ∧
    ((processTrade procConfigDefault filterConfigDefault c3State
      "FOOUSDT" 100 1000 true "spot" 61).2).isSome = true := by
  refine ⟨?_, ?_, ?_, ?_⟩ <;> with_unfolding_all decide

/-- Witness for C3 (amended): the dedup theorem applied at the concrete
BUY-then-SELL pair above. -/
theorem trade_alert_dedup_witness :
    (((processTrade procConfigDefault filterConfigDefault c3State
        "FOOUSDT" 100 1000 false "spot" 0).2).isSome = true ∧
      pyTrunc (100 : ℚ) = pyTrunc (100 : ℚ) ∧
      (0 : ℚ) ≤ 61 ∧ (61 : ℚ) - 0 < 120) ∧
    (processTrade procConfigDefault filterConfigDefault
      (processTrade procConfigDefault filterConfigDefault c3State
        "FOOUSDT" 100 1000 false "spot" 0).1
      "FOOUSDT" 100 1000 true "spot" 61).2 = none :=
  ⟨⟨by with_unfolding_all decide, rfl, by with_unfolding_all decide,
    by with_unfolding_all decide⟩,
    trade_alert_dedup filterConfigDefault c3State "FOOUSDT" 100 1000 false "spot" 0
      (by with_unfolding_all decide) 100 1000 true 61 rfl
      (by with_unfolding_all decide) (by with_unfolding_all decide)⟩

end AutoTrade

namespace AutoTrade

/-! ## Weighted book imbalance (`monitoring/book_imbalance.py`) -/

inductive ImbDirection where
  | buyPressure
  | sellPressure
  | balanced
deriving DecidableEq, Repr

inductive WbiAlertState where
  | inactive
  | pending
  | active
  | warmup
  | crossMarket
deriving DecidableEq, Repr

/-- `SymbolState` dataclass with its defaults (a freshly observed symbol). -/
structure WbiSymbolState where
  emaScore : Option ℚ := none
  alertState : WbiAlertState := .warmup
  alertDirection : Option ImbDirection := none
  tickCount : ℕ := 0
  warmupJustEnded : Bool := false
  lastUpdate : Option ℚ := none
  pendingDirection : Option ImbDirection := none
  pendingTicks : ℕ := 0
  pendingTrigger : String := ""
  preFlipDirection : Option ImbDirection := none
  lastAlertTime : Option ℚ := none
deriving Repr

/-- `BookImbalanceAnalyzer.__init__` defaults (WBI-Lite v3.1). -/
structure WbiConfig where
  maxDepth : ℕ := 10
  emaAlpha : ℚ := 1/10
  deltaTrigger : ℚ := 7/10
  deltaReset : ℚ := 2/10
  levelTrigger : ℚ := 85/100
  directionThreshold : ℚ := 1/10
  warmupTicks : ℕ := 10
  confirmTicks : ℕ := 3
  cooldownSeconds : ℚ := 60
  minSpreadBps : ℚ := 1
  maxSpreadBps : ℚ := 500
  sigmoidGain : ℚ := 2

def wbiConfigDefault : WbiConfig := {}

/-- `ImbalanceSignal` dataclass. -/
structure ImbalanceSignal where
  symbol : String
  direction : ImbDirection
  score : ℚ
  delta : ℚ
  buyPower : ℚ
  sellPower : ℚ
  ratio : ℚ
  state : WbiAlertState
  isSignificant : Bool
  triggerReason : String
deriving Repr

/-- Stable insertion keeping the price-descending order (`heapq.nlargest`). -/
def insertDescPrice (x : ℚ × ℚ) : List (ℚ × ℚ) → List (ℚ × ℚ)
  | [] => [x]
  | y :: ys => if x.1 ≤ y.1 then y :: insertDescPrice x ys else x :: y :: ys

/-- Stable insertion keeping the price-ascending order (`heapq.nsmallest`). -/
def insertAscPrice (x : ℚ × ℚ) : List (ℚ × ℚ) → List (ℚ × ℚ)
  | [] => [x]
  | y :: ys => if y.1 ≤ x.1 then y :: insertAscPrice x ys else x :: y :: ys

def sortDescByPrice (l : List (ℚ × ℚ)) : List (ℚ × ℚ) :=
  l.foldl (fun acc x => insertDescPrice x acc) []

def sortAscByPrice (l : List (ℚ × ℚ)) : List (ℚ × ℚ) :=
  l.foldl (fun acc x => insertAscPrice x acc) []

/-- `heapq.nlargest(max_depth, bids, key=price)`. -/
def nlargestByPrice (n : ℕ) (l : List (ℚ × ℚ)) : List (ℚ × ℚ) :=
  (sortDescByPrice l).take n

/-- `heapq.nsmallest(max_depth, asks, key=price)`. -/
def nsmallestByPrice (n : ℕ) (l : List (ℚ × ℚ)) : List (ℚ × ℚ) :=
  (sortAscByPrice l).take n

/-- `_calculate_spread_weight`. -/
def spreadWeight (price mid spread : ℚ) : ℚ :=
  1 / (1 + |price - mid| / spread)

/-- `_calculate_weighted_power` (skips non-positive prices and sizes). -/
def weightedPower (levels : List (ℚ × ℚ)) (mid spread : ℚ) : ℚ :=
  levels.foldl
    (fun acc pq =>
      if pq.1 ≤ 0 ∨ pq.2 ≤ 0 then acc
      else acc + pq.1 * pq.2 * spreadWeight pq.1 mid spread) 0

/-- `_get_direction_from_value` (threshold 0.1, strict comparisons). -/
def getDirectionFromValue (cfg : WbiConfig) (v : ℚ) : ImbDirection :=
  if cfg.directionThreshold < v then .buyPressure
  else if v < -cfg.directionThreshold then .sellPressure
  else .balanced

/-- `BookImbalanceAnalyzer._is_in_cooldown`. -/
def wbiIsInCooldown (cfg : WbiConfig) (st : WbiSymbolState) (now : ℚ) : Bool :=
  match st.lastAlertTime with
  | none => false
  | some t => now - t < cfg.cooldownSeconds

/-- The strength word of `_format_trigger_reason`. -/
def strengthLabel (v : ℚ) : String :=
  if 1 ≤ |v| then "极强"
  else if 8/10 ≤ |v| then "强"
  else if 6/10 ≤ |v| then "中等"
  else "弱"

/-- `BookImbalanceAnalyzer._format_trigger_reason`. -/
def formatTriggerReason (triggerType : String) (value : ℚ) : String :=
  if triggerType = "delta" then "变化: " ++ strengthLabel value
  else if triggerType = "level" then "不平衡: " ++ strengthLabel value
  else if triggerType = "flip" then "反转: " ++ strengthLabel value
  else triggerType

/-- `delta = score - ema if ema else 0.0` — note the Python truthiness quirk:
an EMA of exactly 0.0 also yields `delta = 0`. -/
def deltaPlain (ema : Option ℚ) (score : ℚ) : ℚ :=
  match ema with
  | none => 0
  | some e => if e = 0 then 0 else score - e

/-- In `PENDING`, the direction of the current tick: strong delta first,
then strong score, else the weak direction of the score. -/
def pendingCurrentDir (cfg : WbiConfig) (delta score : ℚ) : ImbDirection :=
  if cfg.deltaTrigger ≤ |delta| then
    (if 0 < delta then .buyPressure else .sellPressure)
  else if cfg.levelTrigger ≤ |score| then
    (if 0 < score then .buyPressure else .sellPressure)
  else getDirectionFromValue cfg score

/-- The v3.0 state machine of `get_signal` (source lines 317–444): takes the
state after the EMA update, the score and delta of the tick, and returns
`(new state, is_significant, direction, trigger_reason)`. -/
def wbiMachine (cfg : WbiConfig) (st : WbiSymbolState) (score delta : ℚ)
    (now : ℚ) : WbiSymbolState × Bool × ImbDirection × String :=
  match st.alertState with
  | .inactive =>
      if cfg.deltaTrigger ≤ |delta| then
        let dir := if 0 < delta then ImbDirection.buyPressure else ImbDirection.sellPressure
        ({ st with
            alertState := .pending
            pendingDirection := some dir
            pendingTicks := 1
            pendingTrigger := formatTriggerReason "delta" delta }, false, dir, "")
      else if cfg.levelTrigger ≤ |score| then
        let dir := if 0 < score then ImbDirection.buyPressure else ImbDirection.sellPressure
        ({ st with
            alertState := .pending
            pendingDirection := some dir
            pendingTicks := 1
            pendingTrigger := formatTriggerReason "level" score }, false, dir, "")
      else (st, false, .balanced, "")
  | .pending =>
      let currentDir := pendingCurrentDir cfg delta score
      if st.pendingDirection = some currentDir then
        let k := st.pendingTicks + 1
        if cfg.confirmTicks ≤ k then
          if wbiIsInCooldown cfg st now then
            ({ st with
                alertState := .active
                pendingTicks := k
                alertDirection := some currentDir
                preFlipDirection := none },
              false, currentDir, st.pendingTrigger ++ " (冷却中)")
          else
            ({ st with
                alertState := .active
                pendingTicks := k
                alertDirection := some currentDir
                lastAlertTime := some now
                preFlipDirection := none },
              true, currentDir, st.pendingTrigger)
        else ({ st with pendingTicks := k }, false, .balanced, "")
      else
        if cfg.deltaTrigger ≤ |delta| ∨ cfg.levelTrigger ≤ |score| then
          let ttype := if cfg.deltaTrigger ≤ |delta| then "delta" else "level"
          let tval := if cfg.deltaTrigger ≤ |delta| then delta else score
          ({ st with
              alertState := .pending
              pendingDirection := some currentDir
              pendingTicks := 1
              pendingTrigger := formatTriggerReason ttype tval },
            false, .balanced, "")
        else
          match st.preFlipDirection with
          | some pf =>
              ({ st with
                  alertState := .active
                  alertDirection := some pf
                  preFlipDirection := none }, false, pf, "")
          | none =>
              ({ st with
                  alertState := .inactive
                  pendingDirection := none
                  pendingTicks := 0
                  pendingTrigger := "" }, false, .balanced, "")
  | .active =>
      let oldDir := st.alertDirection
      let edgeFlip :=
        (oldDir = some ImbDirection.buyPressure ∧ delta < -cfg.deltaTrigger) ∨
        (oldDir = some ImbDirection.sellPressure ∧ cfg.deltaTrigger < delta)
      let levelFlip :=
        (oldDir = some ImbDirection.buyPressure ∧ score < -cfg.levelTrigger) ∨
        (oldDir = some ImbDirection.sellPressure ∧ cfg.levelTrigger < score)
      if edgeFlip ∨ levelFlip then
        let newDir := if 0 < delta ∨ 0 < score then ImbDirection.buyPressure
          else ImbDirection.sellPressure
        ({ st with
            alertState := .pending
            preFlipDirection := oldDir
            pendingDirection := some newDir
            pendingTicks := 1
            pendingTrigger := formatTriggerReason "flip"
              (if edgeFlip then delta else score) },
          false, oldDir.getD .balanced, "")
      else if |delta| < cfg.deltaReset ∧ |score| < cfg.levelTrigger * (7/10) then
        ({ st with
            alertState := .inactive
            alertDirection := none
            pendingDirection := none
            pendingTicks := 0
            preFlipDirection := none },
          false, .balanced, "")
      else (st, false, st.alertDirection.getD .balanced, "")
  | _ => (st, false, .balanced, "")

/-- The body of `get_signal` from the warmup check onward (after the data
and crossed-book checks): warmup-end and cross-recovery bookkeeping, delta,
the EMA update, and the v3.0 state machine.  `st1` is the state with the
tick counter already incremented. -/
def getSignalMain (cfg : WbiConfig) (st1 : WbiSymbolState) (symbol : String)
    (score now buyPower sellPower : ℚ) : WbiSymbolState × ImbalanceSignal :=
  let ratio := (buyPower + 1/100000000) / (sellPower + 1/100000000)
  if st1.tickCount ≤ cfg.warmupTicks then
    (st1,
      { symbol := symbol, direction := .balanced, score := score, delta := 0,
        buyPower := buyPower, sellPower := sellPower, ratio := ratio,
        state := .warmup, isSignificant := false, triggerReason := "warmup" })
  else
    let p2 := if st1.alertState = .warmup then
        { st1 with
          alertState := .inactive
          emaScore := some score
          warmupJustEnded := true }
      else st1
    let crossRecovered : Bool := p2.alertState = .crossMarket
    let st3 := if crossRecovered then
        { p2 with alertState := .inactive, emaScore := some score }
      else p2
    let delta := if st3.warmupJustEnded || crossRecovered then 0
      else deltaPlain st3.emaScore score
    let st4 := if st3.warmupJustEnded || crossRecovered then
        { st3 with warmupJustEnded := false }
      else st3
    let st5 := match st4.emaScore with
      | none => { st4 with emaScore := some score }
      | some e => { st4 with
          emaScore := some (cfg.emaAlpha * score + (1 - cfg.emaAlpha) * e) }
    let m := wbiMachine cfg st5 score delta now
    (m.1,
      { symbol := symbol, direction := m.2.2.1, score := score, delta := delta,
        buyPower := buyPower, sellPower := sellPower, ratio := ratio,
        state := m.1.alertState, isSignificant := m.2.1,
        triggerReason := m.2.2.2 })

/-- The empty signal of `_empty_signal`. -/
def emptySignal (symbol : String) (st : WbiSymbolState) (reason : String) :
    ImbalanceSignal :=
  { symbol := symbol, direction := .balanced, score := 0, delta := 0, buyPower := 0,
    sellPower := 0, ratio := 1, state := st.alertState, isSignificant := false,
    triggerReason := reason }

/-- `BookImbalanceAnalyzer.get_signal` for one symbol.  The log-sigmoid
`score` is a float transcendental in the source and is therefore passed as
an input (everything else — tops, mid, spread, powers, ratio — is computed
exactly); the branch and state-machine structure follows the source line by
line. -/
def getSignal (cfg : WbiConfig) (st : WbiSymbolState) (symbol : String)
    (bids asks : List (ℚ × ℚ)) (score : ℚ) (now : ℚ) :
    WbiSymbolState × ImbalanceSignal :=
  let st1 := { st with tickCount := st.tickCount + 1, lastUpdate := some now }
  if bids.isEmpty ∨ asks.isEmpty then (st1, emptySignal symbol st1 "no_data")
  else
    let topBids := nlargestByPrice cfg.maxDepth bids
    let topAsks := nsmallestByPrice cfg.maxDepth asks
    if topBids.isEmpty ∨ topAsks.isEmpty then (st1, emptySignal symbol st1 "no_data")
    else
      let bestBid := (topBids.headD (0, 0)).1
      let bestAsk := (topAsks.headD (0, 0)).1
      if bestAsk ≤ bestBid then
        let st2 := { st1 with
          alertState := .crossMarket
          pendingDirection := none
          pendingTicks := 0 }
        (st2, emptySignal symbol st2 "cross_market")
      else
        let mid := (bestBid + bestAsk) / 2
        let spread := qmax (mid * cfg.minSpreadBps / 10000)
          (qmin (bestAsk - bestBid) (mid * cfg.maxSpreadBps / 10000))
        getSignalMain cfg st1 symbol score now (weightedPower topBids mid spread)
          (weightedPower topAsks mid spread)

/-- The `_pending_signals.append` of `get_signal`: the signals the analyzer
emits for this tick (exactly one when significant, none otherwise). -/
def wbiEmitted (cfg : WbiConfig) (st : WbiSymbolState) (symbol : String)
    (bids asks : List (ℚ × ℚ)) (score : ℚ) (now : ℚ) : List ImbalanceSignal :=
  if (getSignal cfg st symbol bids asks score now).2.isSignificant then
    [(getSignal cfg st symbol bids asks score now).2]
  else []

/-- One tick input for the analyzer. -/
structure WbiInput where
  bids : List (ℚ × ℚ)
  asks : List (ℚ × ℚ)
  score : ℚ
  now : ℚ

/-- Run a sequence of ticks, collecting the produced signals. -/
def runWbi (cfg : WbiConfig) (st : WbiSymbolState) (symbol : String) :
    List WbiInput → WbiSymbolState × List ImbalanceSignal
  | [] => (st, [])
  | inp :: rest =>
      let r := getSignal cfg st symbol inp.bids inp.asks inp.score inp.now
      let rr := runWbi cfg r.1 symbol rest
      (rr.1, r.2 :: rr.2)

end AutoTrade

namespace AutoTrade

theorem wbiMachine_tickCount (cfg : WbiConfig) (st : WbiSymbolState)
    (score delta now : ℚ) :
    (wbiMachine cfg st score delta now).1.tickCount = st.tickCount := by
  simp only [wbiMachine]
  repeat' first
  | rfl
  | split

theorem getSignalMain_tickCount (cfg : WbiConfig) (st1 : WbiSymbolState)
    (symbol : String) (score now buyPower sellPower : ℚ) :
    (getSignalMain cfg st1 symbol score now buyPower sellPower).1.tickCount
      = st1.tickCount := by
  simp only [getSignalMain]
  split
  · rfl
  · rw [wbiMachine_tickCount]
    repeat' first
    | rfl
    | split

theorem getSignal_tickCount (cfg : WbiConfig) (st : WbiSymbolState)
    (symbol : String) (bids asks : List (ℚ × ℚ)) (score now : ℚ) :
    (getSignal cfg st symbol bids asks score now).1.tickCount = st.tickCount + 1 := by
  simp only [getSignal]
  split
  · rfl
  · split
    · rfl
    · split
      · rfl
      · rw [getSignalMain_tickCount]

theorem getSignalMain_significant_past_warmup (cfg : WbiConfig)
    (st1 : WbiSymbolState) (symbol : String) (score now buyPower sellPower : ℚ)
    (h : (getSignalMain cfg st1 symbol score now buyPower sellPower).2.isSignificant
      = true) :
    cfg.warmupTicks < st1.tickCount := by
  simp only [getSignalMain] at h
  split at h
  · simp at h
  · rename_i hw
    omega

theorem getSignal_significant_past_warmup (cfg : WbiConfig) (st : WbiSymbolState)
    (symbol : String) (bids asks : List (ℚ × ℚ)) (score now : ℚ)
    (h : (getSignal cfg st symbol bids asks score now).2.isSignificant = true) :
    cfg.warmupTicks < st.tickCount + 1 := by
  simp only [getSignal] at h
  split at h
  · simp [emptySignal] at h
  · split at h
    · simp [emptySignal] at h
    · split at h
      · simp [emptySignal] at h
      · exact getSignalMain_significant_past_warmup cfg _ symbol score now _ _ h

/-- C4.  With the default configuration, a freshly observed symbol is in
warmup for its first `warmupTicks = 10` ticks: no tick in any input
sequence of length ≤ 10 produces a significant signal, regardless of the
bid/ask books (and of the score value) supplied on those ticks. -/
theorem wbi_warmup_no_alerts (symbol : String) (inputs : List WbiInput)
    (h : inputs.length ≤ 10) :
    ∀ sig ∈ (runWbi wbiConfigDefault {} symbol inputs).2, sig.isSignificant = false := by
  suffices haux : ∀ (inputs : List WbiInput) (st : WbiSymbolState),
      st.tickCount + inputs.length ≤ 10 →
      ∀ sig ∈ (runWbi wbiConfigDefault st symbol inputs).2,
        sig.isSignificant = false by
    exact haux inputs {} (by simpa using h)
  intro inputs
  induction inputs with
  | nil =>
      intro st hlen sig hsig
      simp [runWbi] at hsig
  | cons inp rest ih =>
      intro st hlen sig hsig
      simp only [runWbi, List.mem_cons] at hsig
      rcases hsig with rfl | hmem
      · cases hb : (getSignal wbiConfigDefault st symbol inp.bids inp.asks
            inp.score inp.now).2.isSignificant with
        | false => rfl
        | true =>
            exfalso
            have hw := getSignal_significant_past_warmup wbiConfigDefault st symbol
              inp.bids inp.asks inp.score inp.now hb
            have hw10 : (10 : ℕ) < st.tickCount + 1 := hw
            simp only [List.length_cons] at hlen
            omega
      · have ht := getSignal_tickCount wbiConfigDefault st symbol inp.bids inp.asks
          inp.score inp.now
        exact ih _ (by rw [ht]; simp at hlen; omega) sig hmem

/-- Witness for C4: two warmup ticks with strongly imbalanced books produce
only non-significant signals. -/
theorem wbi_warmup_no_alerts_witness :
    ([⟨[(100, 50)], [(101, 1)], 9/10, 0⟩,
      (⟨[(100, 900)], [(101, 1)], 99/100, 1⟩ : WbiInput)].length ≤ 10) ∧
    ∀ sig ∈ (runWbi wbiConfigDefault {} "BTCUSDT"
      [⟨[(100, 50)], [(101, 1)], 9/10, 0⟩,
        (⟨[(100, 900)], [(101, 1)], 99/100, 1⟩ : WbiInput)]).2,
      sig.isSignificant = false :=
  ⟨by decide,
    wbi_warmup_no_alerts "BTCUSDT"
      [⟨[(100, 50)], [(101, 1)], 9/10, 0⟩,
        (⟨[(100, 900)], [(101, 1)], 99/100, 1⟩ : WbiInput)] (by decide)⟩

end AutoTrade

namespace AutoTrade

theorem insertDescPrice_length (x : ℚ × ℚ) (l : List (ℚ × ℚ)) :
    (insertDescPrice x l).length = l.length + 1 := by
  induction l with
  | nil => rfl
  | cons y ys ih =>
      simp only [insertDescPrice]
      split
      · simp [ih]
      · simp

theorem insertAscPrice_length (x : ℚ × ℚ) (l : List (ℚ × ℚ)) :
    (insertAscPrice x l).length = l.length + 1 := by
  induction l with
  | nil => rfl
  | cons y ys ih =>
      simp only [insertAscPrice]
      split
      · simp [ih]
      · simp

theorem sortDescByPrice_length (l : List (ℚ × ℚ)) :
    (sortDescByPrice l).length = l.length := by
  suffices haux : ∀ (l acc : List (ℚ × ℚ)),
      (l.foldl (fun acc x => insertDescPrice x acc) acc).length
        = acc.length + l.length by simpa [sortDescByPrice] using haux l []
  intro l
  induction l with
  | nil => simp
  | cons y ys ih =>
      intro acc
      simp only [List.foldl_cons]
      rw [ih (insertDescPrice y acc), insertDescPrice_length]
      simp only [List.length_cons]
      omega

theorem sortAscByPrice_length (l : List (ℚ × ℚ)) :
    (sortAscByPrice l).length = l.length := by
  suffices haux : ∀ (l acc : List (ℚ × ℚ)),
      (l.foldl (fun acc x => insertAscPrice x acc) acc).length
        = acc.length + l.length by simpa [sortAscByPrice] using haux l []
  intro l
  induction l with
  | nil => simp
  | cons y ys ih =>
      intro acc
      simp only [List.foldl_cons]
      rw [ih (insertAscPrice y acc), insertAscPrice_length]
      simp only [List.length_cons]
      omega

theorem nlargestByPrice_isEmpty_false (n : ℕ) (l : List (ℚ × ℚ))
    (hl : l ≠ []) (hn : 0 < n) : (nlargestByPrice n l).isEmpty = false := by
  have hlen : (nlargestByPrice n l).length = min n l.length := by
    simp [nlargestByPrice, sortDescByPrice_length]
  have hpos : 0 < (nlargestByPrice n l).length := by
    rw [hlen]
    have := List.length_pos.mpr hl
    omega
  cases hres : nlargestByPrice n l with
  | nil => rw [hres] at hpos; simp at hpos
  | cons a as => rfl

theorem nsmallestByPrice_isEmpty_false (n : ℕ) (l : List (ℚ × ℚ))
    (hl : l ≠ []) (hn : 0 < n) : (nsmallestByPrice n l).isEmpty = false := by
  have hlen : (nsmallestByPrice n l).length = min n l.length := by
    simp [nsmallestByPrice, sortAscByPrice_length]
  have hpos : 0 < (nsmallestByPrice n l).length := by
    rw [hlen]
    have := List.length_pos.mpr hl
    omega
  cases hres : nsmallestByPrice n l with
  | nil => rw [hres] at hpos; simp at hpos
  | cons a as => rfl

/-- `best_bid = top_bids[0][0]`. -/
def bestBidOf (cfg : WbiConfig) (bids : List (ℚ × ℚ)) : ℚ :=
  ((nlargestByPrice cfg.maxDepth bids).headD (0, 0)).1

/-- `best_ask = top_asks[0][0]`. -/
def bestAskOf (cfg : WbiConfig) (asks : List (ℚ × ℚ)) : ℚ :=
  ((nsmallestByPrice cfg.maxDepth asks).headD (0, 0)).1

/-- `mid_price`. -/
def midOf (cfg : WbiConfig) (bids asks : List (ℚ × ℚ)) : ℚ :=
  (bestBidOf cfg bids + bestAskOf cfg asks) / 2

/-- `spread = clamp(best_ask - best_bid, mid·minBps/10⁴, mid·maxBps/10⁴)`. -/
def spreadOf (cfg : WbiConfig) (bids asks : List (ℚ × ℚ)) : ℚ :=
  qmax (midOf cfg bids asks * cfg.minSpreadBps / 10000)
    (qmin (bestAskOf cfg asks - bestBidOf cfg bids)
      (midOf cfg bids asks * cfg.maxSpreadBps / 10000))

theorem getSignal_eq_main (cfg : WbiConfig) (st : WbiSymbolState) (symbol : String)
    (bids asks : List (ℚ × ℚ)) (score now : ℚ)
    (hb : bids ≠ []) (ha : asks ≠ [])
    (hcross : bestBidOf cfg bids < bestAskOf cfg asks)
    (hdepth : 0 < cfg.maxDepth) :
    getSignal cfg st symbol bids asks score now
      = getSignalMain cfg
          { st with tickCount := st.tickCount + 1, lastUpdate := some now } symbol
          score now
          (weightedPower (nlargestByPrice cfg.maxDepth bids) (midOf cfg bids asks)
            (spreadOf cfg bids asks))
          (weightedPower (nsmallestByPrice cfg.maxDepth asks) (midOf cfg bids asks)
            (spreadOf cfg bids asks)) := by
  have hb' : bids.isEmpty = false := by
    cases bids with
    | nil => exact absurd rfl hb
    | cons x xs => rfl
  have ha' : asks.isEmpty = false := by
    cases asks with
    | nil => exact absurd rfl ha
    | cons x xs => rfl
  simp only [getSignal, hb', ha',
    nlargestByPrice_isEmpty_false cfg.maxDepth bids hb hdepth,
    nsmallestByPrice_isEmpty_false cfg.maxDepth asks ha hdepth,
    Bool.false_eq_true, or_self, if_false]
  have hcross' : ((nlargestByPrice cfg.maxDepth bids).headD (0, 0)).1
      < ((nsmallestByPrice cfg.maxDepth asks).headD (0, 0)).1 := hcross
  rw [if_neg (not_le.mpr hcross')]
  rfl

end AutoTrade

namespace AutoTrade

/-- C5.  The `PENDING(d, k)` branch of the WBI state machine (source lines
353–407, embedded as `wbiMachine`), with the default configuration: on a
tick whose current direction equals `d`, the confirm counter increments;
once it reaches `confirmTicks = 3`, if the symbol is not within
`cooldownSeconds` (60) of its last alert the tick is significant with
direction `d`, the state becomes `ACTIVE` with `alert_direction = d` and
`last_alert_time = now`; if it is in cooldown, the state still becomes
`ACTIVE(d)` but the tick is not significant and the trigger reason carries
the cooldown-suppressed marker.  Below `confirmTicks` the state stays
`PENDING` and nothing is emitted.  The final conjunct records that the
analyzer appends exactly the significant signals to its pending queue. -/
theorem wbi_pending_confirm (st : WbiSymbolState) (score delta now : ℚ)
    (d : ImbDirection)
    (hstate : st.alertState = .pending)
    (hdir : st.pendingDirection = some d)
    (hcur : pendingCurrentDir wbiConfigDefault delta score = d) :
    ((wbiMachine wbiConfigDefault st score delta now).1.pendingTicks
      = st.pendingTicks + 1) ∧
    (3 ≤ st.pendingTicks + 1 →
      (wbiIsInCooldown wbiConfigDefault st now = false →
        (wbiMachine wbiConfigDefault st score delta now).2.1 = true ∧
        (wbiMachine wbiConfigDefault st score delta now).2.2.1 = d ∧
        (wbiMachine wbiConfigDefault st score delta now).1.alertState = .active ∧
        (wbiMachine wbiConfigDefault st score delta now).1.alertDirection = some d ∧
        (wbiMachine wbiConfigDefault st score delta now).1.lastAlertTime = some now ∧
        (wbiMachine wbiConfigDefault st score delta now).2.2.2 = st.pendingTrigger) ∧
      (wbiIsInCooldown wbiConfigDefault st now = true →
        (wbiMachine wbiConfigDefault st score delta now).2.1 = false ∧
        (wbiMachine wbiConfigDefault st score delta now).1.alertState = .active ∧
        (wbiMachine wbiConfigDefault st score delta now).1.alertDirection = some d ∧
        (wbiMachine wbiConfigDefault st score delta now).2.2.2
          = st.pendingTrigger ++ " (冷却中)" ∧
        (wbiMachine wbiConfigDefault st score delta now).1.lastAlertTime
          = st.lastAlertTime)) ∧
    (st.pendingTicks + 1 < 3 →
      (wbiMachine wbiConfigDefault st score delta now).1.alertState = .pending ∧
      (wbiMachine wbiConfigDefault st score delta now).2.1 = false) ∧
    (∀ (cfg : WbiConfig) (st' : WbiSymbolState) (symbol : String)
      (bids asks : List (ℚ × ℚ)) (sc n : ℚ),
      wbiEmitted cfg st' symbol bids asks sc n
        = if (getSignal cfg st' symbol bids asks sc n).2.isSignificant then
            [(getSignal cfg st' symbol bids asks sc n).2] else []) := by
  have hct : wbiConfigDefault.confirmTicks = 3 := rfl
  have hmr : wbiMachine wbiConfigDefault st score delta now
      = (if wbiConfigDefault.confirmTicks ≤ st.pendingTicks + 1 then
          (if wbiIsInCooldown wbiConfigDefault st now then
            ({ st with
                alertState := .active
                pendingTicks := st.pendingTicks + 1
                alertDirection := some (pendingCurrentDir wbiConfigDefault delta score)
                preFlipDirection := none },
              false, pendingCurrentDir wbiConfigDefault delta score,
              st.pendingTrigger ++ " (冷却中)")
          else
            ({ st with
                alertState := .active
                pendingTicks := st.pendingTicks + 1
                alertDirection := some (pendingCurrentDir wbiConfigDefault delta score)
                lastAlertTime := some now
                preFlipDirection := none },
              true, pendingCurrentDir wbiConfigDefault delta score,
              st.pendingTrigger))
        else ({ st with pendingTicks := st.pendingTicks + 1 }, false,
          ImbDirection.balanced, "")) := by
    simp only [wbiMachine, hstate]
    rw [if_pos (by rw [hcur, hdir])]
  rw [hmr, hct]
  refine ⟨?_, fun hk3 => ⟨fun hcf => ?_, fun hcc => ?_⟩, fun hlt => ?_,
    fun cfg st' symbol bids asks sc n => rfl⟩
  · by_cases hk : 3 ≤ st.pendingTicks + 1
    · rw [if_pos hk]
      by_cases hcd : wbiIsInCooldown wbiConfigDefault st now = true
      · rw [if_pos hcd]
      · rw [if_neg hcd]
    · rw [if_neg hk]
  · rw [if_pos hk3, if_neg (by rw [hcf]; exact Bool.false_ne_true)]
    exact ⟨rfl, hcur, rfl, by rw [hcur], rfl, rfl⟩
  · rw [if_pos hk3, if_pos hcc]
    exact ⟨rfl, rfl, by rw [hcur], rfl, rfl⟩
  · rw [if_neg (by omega)]
    exact ⟨hstate, rfl⟩

end AutoTrade

namespace AutoTrade

/-- A symbol two confirm-ticks into `PENDING(buy)`, past warmup, with no
prior alert. -/
def c5State : WbiSymbolState :=
  { alertState := .pending
    pendingDirection := some .buyPressure
    pendingTicks := 2
    pendingTrigger := "变化: 强"
    tickCount := 15
    emaScore := some (1/10) }

theorem wbi_pending_confirm_witness :
    (c5State.alertState = .pending ∧
      c5State.pendingDirection = some ImbDirection.buyPressure ∧
      pendingCurrentDir wbiConfigDefault (8/10) (9/10) = ImbDirection.buyPressure) ∧
    (((wbiMachine wbiConfigDefault c5State (9/10) (8/10) 100).1.pendingTicks
      = c5State.pendingTicks + 1) ∧
    (3 ≤ c5State.pendingTicks + 1 →
      (wbiIsInCooldown wbiConfigDefault c5State 100 = false →
        (wbiMachine wbiConfigDefault c5State (9/10) (8/10) 100).2.1 = true ∧
        (wbiMachine wbiConfigDefault c5State (9/10) (8/10) 100).2.2.1
          = ImbDirection.buyPressure ∧
        (wbiMachine wbiConfigDefault c5State (9/10) (8/10) 100).1.alertState = .active ∧
        (wbiMachine wbiConfigDefault c5State (9/10) (8/10) 100).1.alertDirection
          = some ImbDirection.buyPressure ∧
        (wbiMachine wbiConfigDefault c5State (9/10) (8/10) 100).1.lastAlertTime
          = some 100 ∧
        (wbiMachine wbiConfigDefault c5State (9/10) (8/10) 100).2.2.2
          = c5State.pendingTrigger) ∧
      (wbiIsInCooldown wbiConfigDefault c5State 100 = true →
        (wbiMachine wbiConfigDefault c5State (9/10) (8/10) 100).2.1 = false ∧
        (wbiMachine wbiConfigDefault c5State (9/10) (8/10) 100).1.alertState = .active ∧
        (wbiMachine wbiConfigDefault c5State (9/10) (8/10) 100).1.alertDirection
          = some ImbDirection.buyPressure ∧
        (wbiMachine wbiConfigDefault c5State (9/10) (8/10) 100).2.2.2
          = c5State.pendingTrigger ++ " (冷却中)" ∧
        (wbiMachine wbiConfigDefault c5State (9/10) (8/10) 100).1.lastAlertTime
          = c5State.lastAlertTime)) ∧
    (c5State.pendingTicks + 1 < 3 →
      (wbiMachine wbiConfigDefault c5State (9/10) (8/10) 100).1.alertState = .pending ∧
      (wbiMachine wbiConfigDefault c5State (9/10) (8/10) 100).2.1 = false) ∧
    (∀ (cfg : WbiConfig) (st' : WbiSymbolState) (symbol : String)
      (bids asks : List (ℚ × ℚ)) (sc n : ℚ),
      wbiEmitted cfg st' symbol bids asks sc n
        = if (getSignal cfg st' symbol bids asks sc n).2.isSignificant then
            [(getSignal cfg st' symbol bids asks sc n).2] else [])) :=
  ⟨⟨rfl, rfl, by with_unfolding_all decide⟩,
    wbi_pending_confirm c5State (9/10) (8/10) 100 ImbDirection.buyPressure rfl rfl
      (by with_unfolding_all decide)⟩

end AutoTrade

namespace AutoTrade

/-! ## WebSocket connection-rate gate (`connectors/binance/websocket.py`) -/

/-- `BinanceWebSocketManager.__init__` rate parameters (defaults). -/
structure WsConfig where
  rateLimitWindow : ℚ := 300
  rateLimitMax : ℕ := 280
  deqMaxlen : ℕ := 300

def wsConfigDefault : WsConfig := {}

/-- The cleanup loop: pop connection timestamps older than the window from
the left of the deque. -/
def dropExpired (cutoff : ℚ) : List ℚ → List ℚ
  | [] => []
  | t :: rest => if t < cutoff then dropExpired cutoff rest else t :: rest

/-- `BinanceWebSocketManager.wait_for_rate_limit`: returns the seconds the
caller sleeps (0 when under the limit) and the new timestamp deque.  The
call-time `now` is appended unconditionally, before any dial is attempted. -/
def waitForRateLimit (cfg : WsConfig) (timestamps : List ℚ) (now : ℚ) :
    ℚ × List ℚ :=
  let cleaned := dropExpired (now - cfg.rateLimitWindow) timestamps
  let wait : ℚ :=
    if cfg.rateLimitMax ≤ cleaned.length then
      qmax 1 (qmin (cleaned.headD 0 + cfg.rateLimitWindow - now) 60)
    else 0
  (wait, appendMax cfg.deqMaxlen cleaned now)

theorem mem_appendMax_self (n : ℕ) (l : List ℚ) (x : ℚ) (hn : 1 ≤ n) :
    x ∈ appendMax n l x := by
  simp only [appendMax]
  split
  · rename_i hlen
    have hk : (l ++ [x]).length - n ≤ l.length := by
      simp only [List.length_append, List.length_singleton]
      omega
    rw [List.drop_append_of_le_length hk]
    exact List.mem_append_right _ (List.mem_singleton.mpr rfl)
  · exact List.mem_append_right _ (List.mem_singleton.mpr rfl)

/-- C7 counterexample.  280 connections recorded at time 0, `waitForSlot`
called at time 100: the oldest timestamp leaves the window only at time
300, yet the computed wait is clamped to 60 s, so the caller proceeds at
time 160 — before the oldest has aged out — and the call time 100 is
recorded in the deque although no dial has happened yet. -/
theorem rate_gate_counterexample :
    (waitForRateLimit wsConfigDefault (List.replicate 280 0) 100).1 = 60 ∧
    (100 : ℚ) + (waitForRateLimit wsConfigDefault (List.replicate 280 0) 100).1
      < 0 + 300 ∧
    (waitForRateLimit wsConfigDefault (List.replicate 280 0) 100).2.headD 99 = 0 ∧
    (100 : ℚ) ∈ (waitForRateLimit wsConfigDefault (List.replicate 280 0) 100).2 := by
  refine ⟨?_, ?_, ?_, ?_⟩ <;> with_unfolding_all decide

/-- C7 amended.  When the cleaned window already holds at least
`rateLimitMax = 280` timestamps, `wait_for_rate_limit` sleeps
`clamp(secondsUntilOldestLeavesWindow, 1, 60)` — never more than 60 s, so
it does not necessarily wait until the oldest timestamp has aged past the
300-second window — and then records the call-time timestamp
unconditionally (before and regardless of any dial attempt). -/
theorem rate_gate_wait_formula (timestamps : List ℚ) (now : ℚ)
    (h : 280 ≤ (dropExpired (now - 300) timestamps).length) :
    (waitForRateLimit wsConfigDefault timestamps now).1
      = qmax 1 (qmin ((dropExpired (now - 300) timestamps).headD 0 + 300 - now) 60) ∧
    (waitForRateLimit wsConfigDefault timestamps now).1 ≤ 60 ∧
    (waitForRateLimit wsConfigDefault timestamps now).2
      = appendMax 300 (dropExpired (now - 300) timestamps) now ∧
    now ∈ (waitForRateLimit wsConfigDefault timestamps now).2 := by
  have hwin : wsConfigDefault.rateLimitWindow = 300 := rfl
  have hmax : wsConfigDefault.rateLimitMax = 280 := rfl
  have hdq : wsConfigDefault.deqMaxlen = 300 := rfl
  refine ⟨?_, ?_, ?_, ?_⟩
  · simp only [waitForRateLimit, hwin, hmax, hdq, if_pos h]
  · simp only [waitForRateLimit, hwin, hmax, hdq, if_pos h]
    simp only [qmax, qmin]
    split_ifs <;> linarith
  · simp only [waitForRateLimit, hwin, hmax, hdq, if_pos h]
  · simp only [waitForRateLimit, hwin, hmax, hdq, if_pos h]
    exact mem_appendMax_self _ _ _ (by norm_num)

/-- Witness for C7 (amended) at the concrete 280-at-time-0 state. -/
theorem rate_gate_wait_formula_witness :
    (280 ≤ (dropExpired (100 - 300) (List.replicate 280 (0:ℚ))).length) ∧
    ((waitForRateLimit wsConfigDefault (List.replicate 280 (0:ℚ)) 100).1
      = qmax 1 (qmin ((dropExpired (100 - 300)
          (List.replicate 280 (0:ℚ))).headD 0 + 300 - 100) 60) ∧
    (waitForRateLimit wsConfigDefault (List.replicate 280 (0:ℚ)) 100).1 ≤ 60 ∧
    (waitForRateLimit wsConfigDefault (List.replicate 280 (0:ℚ)) 100).2
      = appendMax 300 (dropExpired (100 - 300) (List.replicate 280 (0:ℚ))) 100 ∧
    (100 : ℚ) ∈ (waitForRateLimit wsConfigDefault (List.replicate 280 (0:ℚ)) 100).2) :=
  ⟨by with_unfolding_all decide,
    rate_gate_wait_formula (List.replicate 280 (0:ℚ)) 100
      (by with_unfolding_all decide)⟩

end AutoTrade

namespace AutoTrade

/-! ## Telegram notifier (`scripts/run_binance_monitor.py`) -/

/-- `TelegramNotifier` state: two credential pairs and ONE shared
rolling-minute send log (`_last_send_times`, `deque(maxlen=rate_limit)`). -/
structure NotifierState where
  token : String
  chatId : String
  urgentToken : String
  urgentChatId : String
  rateLimit : ℕ
  lastSendTimes : List ℚ
deriving Repr

/-- `TelegramNotifier.__init__`: unset urgent credentials fall back to the
normal ones (`urgent_token or token`). -/
def mkNotifier (token chatId urgentToken urgentChatId : String)
    (rateLimit : ℕ) : NotifierState :=
  { token := token
    chatId := chatId
    urgentToken := if urgentToken = "" then token else urgentToken
    urgentChatId := if urgentChatId = "" then chatId else urgentChatId
    rateLimit := rateLimit
    lastSendTimes := [] }

/-- The Bot selection in `send`: HIGH uses the urgent pair, everything else
the normal pair. -/
def chooseCreds (st : NotifierState) (level : AlertLevel) : String × String :=
  if level = .high then (st.urgentToken, st.urgentChatId) else (st.token, st.chatId)

/-- Python `timedelta.seconds` of a duration of `d` seconds:
`floor(d) mod 86400`. -/
def pyDeltaSeconds (d : ℚ) : ℤ := ⌊d⌋ % 86400

/-- The rolling-minute cleanup loop of `send`
(`while ... (now - head).seconds > 60: popleft`). -/
def cleanupSends (now : ℚ) : List ℚ → List ℚ
  | [] => []
  | t :: rest => if 60 < pyDeltaSeconds (now - t) then cleanupSends now rest
      else t :: rest

/-- `TelegramNotifier.send`: returns whether the message was pushed and the
updated state.  `httpOk` stands for the HTTP 200 outcome of the POST. -/
def notifierSend (st : NotifierState) (level : AlertLevel) (now : ℚ)
    (httpOk : Bool) : Bool × NotifierState :=
  let creds := chooseCreds st level
  if creds.1 = "" ∨ creds.2 = "" then (false, st)
  else
    let lst := cleanupSends now st.lastSendTimes
    let st1 := { st with lastSendTimes := lst }
    if st1.rateLimit ≤ lst.length then (false, st1)
    else if httpOk then
      (true, { st1 with lastSendTimes := appendMax st1.rateLimit lst now })
    else (false, st1)

/-- Send a batch of `(level, time)` messages, all with HTTP success,
collecting the per-message results. -/
def sendMany (st : NotifierState) : List (AlertLevel × ℚ) → NotifierState × List Bool
  | [] => (st, [])
  | (lvl, t) :: rest =>
      let r := notifierSend st lvl t true
      let rr := sendMany r.2 rest
      (rr.1, r.1 :: rr.2)

/-- A notifier with distinct normal and urgent credentials and the default
30/min rate limit. -/
def c8Notifier : NotifierState :=
  mkNotifier "normal-token" "normal-chat" "urgent-token" "urgent-chat" 30

/-- C8 counterexample.  After 30 successful Medium sends inside one minute,
a High alert one second later is dropped (send returns false) although the
urgent channel made zero sends in that minute — the 30/min limit is one
deque shared by both channels, so a High alert is not always sent via the
urgent credentials as the claim requires under its per-channel limits. -/
theorem push_channel_counterexample :
    (sendMany c8Notifier ((qRangeFrom 0 30).map (fun t => (AlertLevel.medium, t)))).2
      = List.replicate 30 true ∧
    chooseCreds (sendMany c8Notifier
        ((qRangeFrom 0 30).map (fun t => (AlertLevel.medium, t)))).1 AlertLevel.high
      = ("urgent-token", "urgent-chat") ∧
    (notifierSend (sendMany c8Notifier
        ((qRangeFrom 0 30).map (fun t => (AlertLevel.medium, t)))).1
      AlertLevel.high 30 true).1 = false := by
  refine ⟨?_, ?_, ?_⟩ <;> with_unfolding_all decide

/-- C8 amended.  High-severity alerts select the urgent credential pair and
Low/Medium the normal pair; one rolling-minute rate limit of 30 is shared
across both channels; 40 Medium alerts arriving within one minute yield
exactly 30 pushes followed by 10 immediate drops (`send` returns false with
no queuing or sleeping, and no drop counter exists to increment). -/
theorem push_rate_limit_scenario :
    chooseCreds c8Notifier AlertLevel.high = ("urgent-token", "urgent-chat") ∧
    chooseCreds c8Notifier AlertLevel.medium = ("normal-token", "normal-chat") ∧
    chooseCreds c8Notifier AlertLevel.low = ("normal-token", "normal-chat") ∧
    (sendMany c8Notifier ((qRangeFrom 0 40).map (fun t => (AlertLevel.medium, t)))).2
      = List.replicate 30 true ++ List.replicate 10 false ∧
    (sendMany c8Notifier
      ((qRangeFrom 0 40).map (fun t => (AlertLevel.medium, t)))).1.lastSendTimes.length
      = 30 := by
  refine ⟨?_, ?_, ?_, ?_, ?_⟩ <;> with_unfolding_all decide

end AutoTrade
